import Mathlib

/-!
Shallow embedding of `pkg/k8shandler/curation.go` of the cluster-logging-operator.

The external resource store (operator-sdk `sdk.Create` / `sdk.Get` / `sdk.Update`
and the `utils.Remove*` deletion helpers) is abstracted by an `Env` record of call
outcomes, and every embedded function additionally returns the ordered list of
store operations (`Op`) it issued, so that ordering, frame and skipping claims can
be stated about the reconciliation trace.  Helper code of this repository that is
not under `src/` (the `utils` package) is modelled from the spec; each such
definition carries a doc comment starting with `Modelled from the spec:`.
Go panics (the unchecked `Containers[0]` index) are modelled by `Option`:
`none` is a panic.
-/

namespace CLO

/-- Error classes returned by the external resource store, mirroring the
k8s apimachinery error predicates used by the source
(`errors.IsAlreadyExists`, `errors.IsNotFound`, `errors.IsConflict`). -/
inductive K8sError
  | alreadyExists
  | notFound
  | conflict
  | other (msg : String)
deriving DecidableEq, Repr

/-- Curation type of the ClusterLogging spec; the source compares it against
`logging.CurationTypeCurator` (curation.go line 27). -/
inductive CurationType
  | curator
  | other (t : String)
deriving DecidableEq, Repr

/-- Management state; the source compares it against
`logging.ManagementStateManaged` (curation.go lines 76, 250, 266, 282). -/
inductive ManagementState
  | managed
  | unmanaged
deriving DecidableEq, Repr

/-- Modelled from the spec: the deployment-topology selector consumed by
`utils.AllInOne` (the `utils` package is outside `src/`): `combined` is the
single-endpoint topology, `split` the separate app/infra endpoints topology. -/
inductive Topology
  | combined
  | split
deriving DecidableEq, Repr

/-- Resource requirements (`v1.ResourceRequirements`), limits and requests as
association lists from resource name to quantity. -/
structure ResourceRequirements where
  limits : List (String × String)
  requests : List (String × String)
deriving DecidableEq, Repr

/-- A volume mount of a container (`v1.VolumeMount`). -/
structure VolumeMount where
  name : String
  readOnly : Bool
  mountPath : String
deriving DecidableEq, Repr

/-- A volume source (`v1.VolumeSource`), restricted to the two kinds the source
uses: a config-map reference and a secret reference. -/
inductive VolumeSource
  | configMapRef (name : String)
  | secretRef (name : String)
deriving DecidableEq, Repr

/-- A pod volume (`v1.Volume`). -/
structure Volume where
  name : String
  source : VolumeSource
deriving DecidableEq, Repr

/-- A container (`v1.Container`), with the fields the source sets. -/
structure Container where
  name : String
  image : String
  imagePullPolicy : String
  resources : ResourceRequirements
  env : List (String × String)
  volumeMounts : List VolumeMount
deriving DecidableEq, Repr

/-- A pod spec (`v1.PodSpec`), with the fields the source sets. -/
structure PodSpec where
  serviceAccountName : String
  containers : List Container
  volumes : List Volume
  restartPolicy : String
  terminationGracePeriodSeconds : Option Int
deriving DecidableEq, Repr

/-- A pod template (`v1.PodTemplateSpec`): object meta (name, namespace,
labels) plus the pod spec. -/
structure PodTemplateSpec where
  name : String
  ns : String
  labels : List (String × String)
  spec : PodSpec
deriving DecidableEq, Repr

/-- A job spec (`batchv1.JobSpec`), with the fields the source sets. -/
structure JobSpec where
  backoffLimit : Option Int
  parallelism : Option Int
  template : PodTemplateSpec
deriving DecidableEq, Repr

/-- A cron-job spec (`batch.CronJobSpec`).  `suspend` is a `*bool` in Go,
hence `Option Bool` here; `concurrencyPolicy` is left at its zero value by the
source. -/
structure CronJobSpec where
  successfulJobsHistoryLimit : Option Int
  failedJobsHistoryLimit : Option Int
  schedule : String
  suspend : Option Bool
  concurrencyPolicy : String
  jobTemplate : JobSpec
deriving DecidableEq, Repr

/-- A cron job (`batch.CronJob`): object meta (name, namespace, owner
references) plus the spec. -/
structure CronJob where
  name : String
  ns : String
  ownerRefs : List String
  spec : CronJobSpec
deriving DecidableEq, Repr

/-- Convenience accessor for the container list of a cron job
(`Spec.JobTemplate.Spec.Template.Spec.Containers` in the source). -/
def CronJob.containers (c : CronJob) : List Container :=
  c.spec.jobTemplate.template.spec.containers

/-- The DerivedStatus written into `ClusterLogging.Status.Curation.CuratorStatus`,
an opaque comparable snapshot (spec section 3); `reflect.DeepEqual` on it is
plain equality. -/
abbrev CuratorStatus := List String

/-- The curator part of the curation spec (`logging.CuratorSpec`), carrying the
optional schedule override read at curation.go line 200. -/
structure CuratorSpec where
  schedule : String
deriving DecidableEq, Repr

/-- The curation spec of a ClusterLogging (`cluster.Spec.Curation`). -/
structure CurationSpec where
  type : CurationType
  curatorSpec : CuratorSpec
  resources : Option ResourceRequirements
deriving DecidableEq, Repr

/-- The ClusterLogging spec. The `topology` field is modelled from the spec
(section 3, deployment-topology selector) because `utils.AllInOne` is outside
`src/`. -/
structure ClusterLoggingSpec where
  managementState : ManagementState
  topology : Topology
  curation : CurationSpec
deriving DecidableEq, Repr

/-- The curation status sub-object (`cluster.Status.Curation`). -/
structure CurationStatus where
  curatorStatus : CuratorStatus
deriving DecidableEq, Repr

/-- The ClusterLogging status sub-object. -/
structure ClusterLoggingStatus where
  curation : CurationStatus
deriving DecidableEq, Repr

/-- The owning configuration object (`logging.ClusterLogging`). -/
structure ClusterLogging where
  name : String
  ns : String
  spec : ClusterLoggingSpec
  status : ClusterLoggingStatus
deriving DecidableEq, Repr

/-- A service account resource (`v1.ServiceAccount`). -/
structure ServiceAccount where
  name : String
  ns : String
  ownerRefs : List String
deriving DecidableEq, Repr

/-- A config map resource (`v1.ConfigMap`). -/
structure ConfigMap where
  name : String
  ns : String
  data : List (String × String)
  ownerRefs : List String
deriving DecidableEq, Repr

/-- A secret resource (`v1.Secret`); byte values are modelled as strings. -/
structure Secret where
  name : String
  ns : String
  data : List (String × String)
  ownerRefs : List String
deriving DecidableEq, Repr

/-- A store operation issued during reconciliation, recorded in order in the
trace returned by every embedded function. -/
inductive Op
  | createServiceAccount (sa : ServiceAccount)
  | createConfigMap (cm : ConfigMap)
  | createSecret (s : Secret)
  | createCronJob (c : CronJob)
  | getCronJob (name ns : String)
  | updateCronJob (c : CronJob)
  | getCuratorStatus (ns : String)
  | getClusterLogging (name ns : String)
  | updateClusterLogging (cl : ClusterLogging)
  | deleteServiceAccount (name ns : String)
  | deleteConfigMap (name ns : String)
  | deleteSecret (name ns : String)
  | deleteCronJob (name ns : String)
deriving DecidableEq, Repr

/-- Outcomes of the external store calls for one reconciliation pass.  The
store is an external collaborator (spec section 6); each field gives the result
the store would return for the corresponding call. -/
structure Env where
  createServiceAccountRes : Option K8sError
  createConfigMapRes : Option K8sError
  secretStoreRes : Option K8sError
  createCronJobRes : String → Option K8sError
  getCronJobRes : String → String → Except K8sError CronJob
  updateCronJobRes : CronJob → Option K8sError
  getCuratorStatusRes : Except String CuratorStatus
  refetchClusterLogging : Option ClusterLogging
  updateClusterLoggingRes : ClusterLogging → Option K8sError
  deleteServiceAccountRes : Option K8sError
  deleteConfigMapRes : Option K8sError
  deleteSecretRes : Option K8sError
  deleteCronJobRes : Option K8sError

/-- Structured rendering of the errors the source returns (the `fmt.Errorf`
wrappings and the raw store errors), so the propagation path stays visible. -/
inductive ReconcileError
  | serviceAccountCreate (e : K8sError)
  | configMapCreate (e : K8sError)
  | cronJobCreate (jobName : String) (e : K8sError)
  | cronJobGet (e : K8sError)
  | cronJobUpdate (e : K8sError)
  | secretCreate (e : K8sError)
  | statusGet (msg : String)
  | statusSync (e : K8sError)
  | removeFailed (kind : String) (e : K8sError)
deriving DecidableEq, Repr

/-- Only raw (unwrapped) store errors satisfy `errors.IsConflict` in Go; the
`fmt.Errorf`-wrapped get error does not.  The only raw error inside the
conflict-retried cron-job closure is the `sdk.Update` error. -/
def ReconcileError.isConflict : ReconcileError → Bool
  | ReconcileError.cronJobUpdate K8sError.conflict => true
  | _ => false

/-- The default curator schedule (curation.go line 23). -/
def defaultSchedule : String := "30 3,9,15,21 * * *"

/-- Modelled from the spec: the default curator memory quantity
(`defaultCuratorMemory`, defined in another file of `pkg/k8shandler` that is
outside `src/`). -/
def defaultCuratorMemory : String := "defaultCuratorMemory"

/-- Modelled from the spec: the default curator cpu request quantity
(`defaultCuratorCpuRequest`, defined outside `src/`). -/
def defaultCuratorCpuRequest : String := "defaultCuratorCpuRequest"

/-- Modelled from the spec: container image selection is an external
collaborator (spec section 1: "selection and pull of container images" is out
of scope); `utils.Container` resolves the image for a component name. -/
def componentImage (component : String) : String :=
  "component-image:" ++ component

/-- Modelled from the spec: `utils.GetFileContents` reads static file contents
supplied by deployment packaging, copied verbatim (spec section 6). -/
def getFileContents (path : String) : String :=
  "file:" ++ path

/-- Modelled from the spec: `utils.GetWorkingDirFileContents` reads credential
material from the namespace-scoped working directory, copied verbatim (spec
section 6). -/
def getWorkingDirFileContents (file : String) : String :=
  "workingdir:" ++ file

/-- Modelled from the spec: `utils.AsOwner` builds the owner reference back to
the ClusterLogging instance (spec section 3: every managed resource carries an
owner reference to its ClusterConfig). -/
def asOwner (cluster : ClusterLogging) : String :=
  cluster.name

/-- Modelled from the spec: `utils.AllInOne` reads the deployment-topology
selector of the ClusterConfig; true in combined topology. -/
def AllInOne (cluster : ClusterLogging) : Bool :=
  decide (cluster.spec.topology = Topology.combined)

/-- The Go pattern `err != nil && !errors.IsAlreadyExists(err)` applied to a
create outcome: already-exists is swallowed, anything else is fatal. -/
def fatalCreateErr : Option K8sError → Option K8sError
  | some K8sError.alreadyExists => none
  | r => r

/-- Modelled from the spec: the `utils.Remove*` deletion helpers (outside
`src/`) issue a store Delete and treat "not found" as success; any other error
is fatal and propagated (spec sections 4.5 and 7). -/
def removeResult : Option K8sError → Option K8sError
  | some K8sError.notFound => none
  | r => r

/-- Steps of `retry.DefaultRetry` in client-go (`wait.Backoff{Steps: 5, ...}`):
the conflict-retried closure runs at most five times. -/
def defaultRetrySteps : Nat := 5

/-- The service account the source builds (curation.go lines 99-101):
`utils.ServiceAccount("curator", ns)` with the owner reference added. -/
def curatorServiceAccount (cluster : ClusterLogging) : ServiceAccount :=
  { name := "curator", ns := cluster.ns, ownerRefs := [asOwner cluster] }

/-- The config map the source builds (curation.go lines 113-123). -/
def curatorConfigMap (cluster : ClusterLogging) : ConfigMap :=
  { name := "curator"
    ns := cluster.ns
    data := [("actions.yaml", getFileContents "files/curator-actions.yaml"),
             ("curator5.yaml", getFileContents "files/curator5-config.yaml"),
             ("config.yaml", getFileContents "files/curator-config.yaml")]
    ownerRefs := [asOwner cluster] }

/-- The secret the source builds (curation.go lines 135-147). -/
def curatorSecret (cluster : ClusterLogging) : Secret :=
  { name := "curator"
    ns := cluster.ns
    data := [("ca", getWorkingDirFileContents "ca.crt"),
             ("key", getWorkingDirFileContents "system.logging.curator.key"),
             ("cert", getWorkingDirFileContents "system.logging.curator.crt"),
             ("ops-ca", getWorkingDirFileContents "ca.crt"),
             ("ops-key", getWorkingDirFileContents "system.logging.curator.key"),
             ("ops-cert", getWorkingDirFileContents "system.logging.curator.crt")]
    ownerRefs := [asOwner cluster] }

/-- newCuratorCronJob (curation.go lines 157-238): the Desired-State Factory
for one scheduled job.  `utils.Container`, `utils.PodSpec` and `utils.CronJob`
are outside `src/`; their field assignments are modelled from the explicit
values in this file and the spec (restart policy never, service account name,
object meta name/namespace). -/
def newCuratorCronJob (cluster : ClusterLogging) (curatorName : String)
    (elasticsearchHost : String) : CronJob :=
  let resources : ResourceRequirements :=
    match cluster.spec.curation.resources with
    | none =>
        { limits := [("memory", defaultCuratorMemory)]
          requests := [("memory", defaultCuratorMemory),
                       ("cpu", defaultCuratorCpuRequest)] }
    | some r => r
  let curatorContainer : Container :=
    { name := "curator"
      image := componentImage "curator"
      imagePullPolicy := "IfNotPresent"
      resources := resources
      env := [("K8S_HOST_URL", "https://kubernetes.default.svc.cluster.local"),
              ("ES_HOST", elasticsearchHost),
              ("ES_PORT", "9200"),
              ("ES_CLIENT_CERT", "/etc/curator/keys/cert"),
              ("ES_CLIENT_KEY", "/etc/curator/keys/key"),
              ("ES_CA", "/etc/curator/keys/ca"),
              ("CURATOR_DEFAULT_DAYS", "30"),
              ("CURATOR_SCRIPT_LOG_LEVEL", "INFO"),
              ("CURATOR_LOG_LEVEL", "ERROR"),
              ("CURATOR_TIMEOUT", "300")]
      volumeMounts := [{ name := "certs", readOnly := true,
                         mountPath := "/etc/curator/keys" },
                       { name := "config", readOnly := true,
                         mountPath := "/etc/curator/settings" }] }
  let curatorPodSpec : PodSpec :=
    { serviceAccountName := "curator"
      containers := [curatorContainer]
      volumes := [{ name := "config", source := VolumeSource.configMapRef "curator" },
                  { name := "certs", source := VolumeSource.secretRef "curator" }]
      restartPolicy := "Never"
      terminationGracePeriodSeconds := some 600 }
  let schedule : String :=
    if cluster.spec.curation.curatorSpec.schedule = "" then defaultSchedule
    else cluster.spec.curation.curatorSpec.schedule
  { name := curatorName
    ns := cluster.ns
    ownerRefs := [asOwner cluster]
    spec :=
      { successfulJobsHistoryLimit := some 1
        failedJobsHistoryLimit := some 1
        schedule := schedule
        suspend := none
        concurrencyPolicy := ""
        jobTemplate :=
          { backoffLimit := some 0
            parallelism := some 1
            template :=
              { name := curatorName
                ns := cluster.ns
                labels := [("provider", "openshift"),
                           ("component", curatorName),
                           ("logging-infra", "curator")]
                spec := curatorPodSpec } } } }

/-- The schedule check of isCuratorDifferent (curation.go lines 322-327): on
string inequality the desired schedule is copied into the live object and the
changed flag is set. -/
def checkSchedule (current desired : CronJob) : CronJob × Bool :=
  if current.spec.schedule ≠ desired.spec.schedule then
    ({ current with spec := { current.spec with schedule := desired.spec.schedule } },
     true)
  else (current, false)

/-- The suspend check of isCuratorDifferent (curation.go lines 329-334),
applied to the state left by the schedule check: compared only when both the
live and the desired `Suspend` pointers are non-nil. -/
def checkSuspend (st : CronJob × Bool) (desired : CronJob) : CronJob × Bool :=
  match st.1.spec.suspend, desired.spec.suspend with
  | some cs, some ds =>
      if cs ≠ ds then
        ({ st.1 with spec := { st.1.spec with suspend := desired.spec.suspend } },
         true)
      else st
  | _, _ => st

/-- The image check of isCuratorDifferent (curation.go lines 336-340): it
indexes element 0 of both container lists with no length guard; the
out-of-range panic of the Go slice access is modelled as `none`. -/
def checkImage (st : CronJob × Bool) (desired : CronJob) : Option (CronJob × Bool) :=
  match st.1.spec.jobTemplate.template.spec.containers,
        desired.spec.jobTemplate.template.spec.containers with
  | c0 :: ct, d0 :: _ =>
      if c0.image ≠ d0.image then
        some ({ st.1 with spec :=
                 { st.1.spec with jobTemplate :=
                    { st.1.spec.jobTemplate with template :=
                       { st.1.spec.jobTemplate.template with spec :=
                          { st.1.spec.jobTemplate.template.spec with
                            containers := { c0 with image := d0.image } :: ct } } } } },
              true)
      else some st
  | _, _ => none

/-- isCuratorDifferent (curation.go lines 318-343): the three sequential field
checks applied to the live object, returning the patched object and the
changed flag; `none` is the Go panic of the unchecked index. -/
def isCuratorDifferent (current desired : CronJob) : Option (CronJob × Bool) :=
  checkImage (checkSuspend (checkSchedule current desired) desired) desired

/-- updateCuratorIfRequired (curation.go lines 295-316): fetch the live object
(keyed by the desired object's name and namespace), treat not-found as benign
success, wrap any other get error, and issue an Update only when
isCuratorDifferent reports a change; the update error is returned raw. -/
def updateCuratorIfRequired (env : Env) (desired : CronJob) :
    Option (Option ReconcileError × List Op) :=
  match env.getCronJobRes desired.name desired.ns with
  | Except.error e =>
      if e = K8sError.notFound then
        some (none, [Op.getCronJob desired.name desired.ns])
      else
        some (some (ReconcileError.cronJobGet e), [Op.getCronJob desired.name desired.ns])
  | Except.ok current =>
      match isCuratorDifferent current desired with
      | none => none
      | some (current2, different) =>
          if different then
            match env.updateCronJobRes current2 with
            | some e =>
                some (some (ReconcileError.cronJobUpdate e),
                      [Op.getCronJob desired.name desired.ns, Op.updateCronJob current2])
            | none =>
                some (none,
                      [Op.getCronJob desired.name desired.ns, Op.updateCronJob current2])
          else
            some (none, [Op.getCronJob desired.name desired.ns])

/-- retry.RetryOnConflict around the cron-job closure: with a fixed `Env` every
attempt has the same outcome `body`; a conflict error is retried until the
budget (`steps`, at least one) is exhausted, and the last conflict error is
then returned.  Traces of all attempts are concatenated.  A panic (`none`)
aborts everything. -/
def retryOnConflictCron : Nat → Option (Option ReconcileError × List Op) →
    Option (Option ReconcileError × List Op)
  | 0, body => body
  | n + 1, body =>
      match body with
      | none => none
      | some (none, tr) => some (none, tr)
      | some (some e, tr) =>
          if e.isConflict then
            if n = 0 then some (some e, tr)
            else
              match retryOnConflictCron n body with
              | none => none
              | some (r, tr2) => some (r, tr ++ tr2)
          else some (some e, tr)

/-- The managed-guarded drift block repeated at curation.go lines 250-257,
266-273 and 282-289: only in fully-managed mode run the conflict-retried
updateCuratorIfRequired for the given job; in unmanaged mode it is skipped
entirely (success, no operations). -/
def driftStep (env : Env) (cluster : ClusterLogging) (job : CronJob) :
    Option (Option ReconcileError × List Op) :=
  if cluster.spec.managementState = ManagementState.managed then
    retryOnConflictCron defaultRetrySteps (updateCuratorIfRequired env job)
  else some (none, [])

/-- createOrUpdateCuratorCronJob (curation.go lines 240-293): in combined
topology create the single job "curator"; in split topology create
"curator-app" then "curator-infra"; after each creation run the
managed-guarded drift step for that job, propagating its error. -/
def createOrUpdateCuratorCronJob (env : Env) (cluster : ClusterLogging) :
    Option (Option ReconcileError × List Op) :=
  if AllInOne cluster then
    match fatalCreateErr (env.createCronJobRes "curator") with
    | some e =>
        some (some (ReconcileError.cronJobCreate "curator" e),
              [Op.createCronJob (newCuratorCronJob cluster "curator" "elasticsearch")])
    | none =>
        match driftStep env cluster (newCuratorCronJob cluster "curator" "elasticsearch") with
        | none => none
        | some (r, tr) =>
            some (r, Op.createCronJob (newCuratorCronJob cluster "curator" "elasticsearch") :: tr)
  else
    match fatalCreateErr (env.createCronJobRes "curator-app") with
    | some e =>
        some (some (ReconcileError.cronJobCreate "curator-app" e),
              [Op.createCronJob (newCuratorCronJob cluster "curator-app" "elasticsearch-app")])
    | none =>
        match driftStep env cluster (newCuratorCronJob cluster "curator-app" "elasticsearch-app") with
        | none => none
        | some (some e, tr) =>
            some (some e,
                  Op.createCronJob (newCuratorCronJob cluster "curator-app" "elasticsearch-app") :: tr)
        | some (none, tr) =>
            match fatalCreateErr (env.createCronJobRes "curator-infra") with
            | some e =>
                some (some (ReconcileError.cronJobCreate "curator-infra" e),
                      Op.createCronJob (newCuratorCronJob cluster "curator-app" "elasticsearch-app") ::
                        tr ++ [Op.createCronJob (newCuratorCronJob cluster "curator-infra" "elasticsearch-infra")])
            | none =>
                match driftStep env cluster
                        (newCuratorCronJob cluster "curator-infra" "elasticsearch-infra") with
                | none => none
                | some (r, tr2) =>
                    some (r, Op.createCronJob (newCuratorCronJob cluster "curator-app" "elasticsearch-app") ::
                              tr ++ Op.createCronJob (newCuratorCronJob cluster "curator-infra" "elasticsearch-infra") :: tr2)

/-- createOrUpdateCuratorServiceAccount (curation.go lines 97-109): one Create,
already-exists swallowed, any other error wrapped and fatal.  No get, diff or
update is ever issued for this resource. -/
def createOrUpdateCuratorServiceAccount (env : Env) (cluster : ClusterLogging) :
    Option ReconcileError × List Op :=
  match fatalCreateErr env.createServiceAccountRes with
  | some e => (some (ReconcileError.serviceAccountCreate e),
               [Op.createServiceAccount (curatorServiceAccount cluster)])
  | none => (none, [Op.createServiceAccount (curatorServiceAccount cluster)])

/-- createOrUpdateCuratorConfigMap (curation.go lines 111-131): one Create,
already-exists swallowed, any other error wrapped and fatal. -/
def createOrUpdateCuratorConfigMap (env : Env) (cluster : ClusterLogging) :
    Option ReconcileError × List Op :=
  match fatalCreateErr env.createConfigMapRes with
  | some e => (some (ReconcileError.configMapCreate e),
               [Op.createConfigMap (curatorConfigMap cluster)])
  | none => (none, [Op.createConfigMap (curatorConfigMap cluster)])

/-- Modelled from the spec: `utils.CreateOrUpdateSecret` (outside `src/`) is
the Idempotent Creator's store call for the credential bundle (spec section
4.2): attempt creation, treat success and already-exists as success, propagate
any other error; it never reads back, diffs or updates existing content. -/
def createOrUpdateSecretStore (res : Option K8sError) : Option K8sError :=
  fatalCreateErr res

/-- createOrUpdateCuratorSecret (curation.go lines 133-155): builds the
credential bundle and hands it to the (spec-modelled) idempotent secret
creation; the error is returned raw. -/
def createOrUpdateCuratorSecret (env : Env) (cluster : ClusterLogging) :
    Option ReconcileError × List Op :=
  match createOrUpdateSecretStore env.secretStoreRes with
  | some e => (some (ReconcileError.secretCreate e),
               [Op.createSecret (curatorSecret cluster)])
  | none => (none, [Op.createSecret (curatorSecret cluster)])

/-- One attempt of the status retry closure (curation.go lines 52-64): re-fetch
the owning ClusterLogging (`utils.DoesClusterLoggingExist`, modelled from the
spec as a keyed get returning the fresh object when it exists); if it exists
and its stored curator status differs (`reflect.DeepEqual`) from the computed
one, write the computed status back with `sdk.Update`, whose error is returned
raw. -/
def statusSyncBody (env : Env) (cluster : ClusterLogging)
    (curatorStatus : CuratorStatus) : Option K8sError × List Op :=
  match env.refetchClusterLogging with
  | some cluster2 =>
      if curatorStatus ≠ cluster2.status.curation.curatorStatus then
        let cluster3 :=
          { cluster2 with status :=
             { cluster2.status with curation :=
                { cluster2.status.curation with curatorStatus := curatorStatus } } }
        (env.updateClusterLoggingRes cluster3,
         [Op.getClusterLogging cluster.name cluster.ns,
          Op.updateClusterLogging cluster3])
      else
        (none, [Op.getClusterLogging cluster.name cluster.ns])
  | none => (none, [Op.getClusterLogging cluster.name cluster.ns])

/-- retry.RetryOnConflict around the status closure, same discipline as the
cron-job retry but with the raw store error of `sdk.Update`. -/
def retryOnConflictStatus : Nat → (Option K8sError × List Op) →
    Option K8sError × List Op
  | 0, body => body
  | n + 1, body =>
      match body with
      | (none, tr) => (none, tr)
      | (some e, tr) =>
          if e = K8sError.conflict then
            if n = 0 then (some e, tr)
            else
              match retryOnConflictStatus n body with
              | (r, tr2) => (r, tr ++ tr2)
          else (some e, tr)

/-- removeCurator (curation.go lines 75-95): only in fully-managed mode,
delete the service account, config map, secret and the cron job named
"curator", in that order, stopping at the first fatal (non-not-found) error;
in unmanaged mode nothing is deleted. -/
def removeCurator (env : Env) (cluster : ClusterLogging) :
    Option ReconcileError × List Op :=
  if cluster.spec.managementState = ManagementState.managed then
    match removeResult env.deleteServiceAccountRes with
    | some e => (some (ReconcileError.removeFailed "serviceaccount" e),
                 [Op.deleteServiceAccount "curator" cluster.ns])
    | none =>
      match removeResult env.deleteConfigMapRes with
      | some e => (some (ReconcileError.removeFailed "configmap" e),
                   [Op.deleteServiceAccount "curator" cluster.ns,
                    Op.deleteConfigMap "curator" cluster.ns])
      | none =>
        match removeResult env.deleteSecretRes with
        | some e => (some (ReconcileError.removeFailed "secret" e),
                     [Op.deleteServiceAccount "curator" cluster.ns,
                      Op.deleteConfigMap "curator" cluster.ns,
                      Op.deleteSecret "curator" cluster.ns])
        | none =>
          match removeResult env.deleteCronJobRes with
          | some e => (some (ReconcileError.removeFailed "cronjob" e),
                       [Op.deleteServiceAccount "curator" cluster.ns,
                        Op.deleteConfigMap "curator" cluster.ns,
                        Op.deleteSecret "curator" cluster.ns,
                        Op.deleteCronJob "curator" cluster.ns])
          | none => (none,
                     [Op.deleteServiceAccount "curator" cluster.ns,
                      Op.deleteConfigMap "curator" cluster.ns,
                      Op.deleteSecret "curator" cluster.ns,
                      Op.deleteCronJob "curator" cluster.ns])
  else (none, [])

/-- CreateOrUpdateCuration (curation.go lines 25-73): the Reconciler entry
point.  With the curator type enabled: service account, config map, cron jobs
(with drift step), secret, then status computation and conflict-retried status
sync, stopping at the first fatal error.  Otherwise removeCurator is invoked
and its result is discarded (line 69 ignores the returned error). -/
def CreateOrUpdateCuration (env : Env) (cluster : ClusterLogging) :
    Option (Option ReconcileError × List Op) :=
  if cluster.spec.curation.type = CurationType.curator then
    match createOrUpdateCuratorServiceAccount env cluster with
    | (some e, t1) => some (some e, t1)
    | (none, t1) =>
      match createOrUpdateCuratorConfigMap env cluster with
      | (some e, t2) => some (some e, t1 ++ t2)
      | (none, t2) =>
        match createOrUpdateCuratorCronJob env cluster with
        | none => none
        | some (some e, t3) => some (some e, t1 ++ t2 ++ t3)
        | some (none, t3) =>
          match createOrUpdateCuratorSecret env cluster with
          | (some e, t4) => some (some e, t1 ++ t2 ++ t3 ++ t4)
          | (none, t4) =>
            match env.getCuratorStatusRes with
            | Except.error msg =>
                some (some (ReconcileError.statusGet msg),
                      t1 ++ t2 ++ t3 ++ t4 ++ [Op.getCuratorStatus cluster.ns])
            | Except.ok curatorStatus =>
                match retryOnConflictStatus defaultRetrySteps
                        (statusSyncBody env cluster curatorStatus) with
                | (some e, t5) =>
                    some (some (ReconcileError.statusSync e),
                          t1 ++ t2 ++ t3 ++ t4 ++
                            Op.getCuratorStatus cluster.ns :: t5)
                | (none, t5) =>
                    some (none,
                          t1 ++ t2 ++ t3 ++ t4 ++
                            Op.getCuratorStatus cluster.ns :: t5)
  else
    some (none, (removeCurator env cluster).2)

/-- Reconciliation stage of a store operation, used to state ordering facts
about traces: service-account create, config-map create, cron-job create and
drift step, secret create, status read, status sync, teardown deletes. -/
def Op.stage : Op → Nat
  | Op.createServiceAccount _ => 0
  | Op.createConfigMap _ => 1
  | Op.createCronJob _ => 2
  | Op.getCronJob _ _ => 2
  | Op.updateCronJob _ => 2
  | Op.createSecret _ => 3
  | Op.getCuratorStatus _ => 4
  | Op.getClusterLogging _ _ => 5
  | Op.updateClusterLogging _ => 5
  | Op.deleteServiceAccount _ _ => 6
  | Op.deleteConfigMap _ _ => 6
  | Op.deleteSecret _ _ => 6
  | Op.deleteCronJob _ _ => 6

/-- Operations of the Drift Detector and Updater: the fetch and the patch of a
scheduled job. -/
def Op.isDrift : Op → Bool
  | Op.getCronJob _ _ => true
  | Op.updateCronJob _ => true
  | _ => false

/-- Creation of one of the three static resources (identity, configuration
bundle, credential bundle). -/
def Op.isStaticCreate : Op → Bool
  | Op.createServiceAccount _ => true
  | Op.createConfigMap _ => true
  | Op.createSecret _ => true
  | _ => false

/-- Creation of the credential bundle. -/
def Op.isSecretCreate : Op → Bool
  | Op.createSecret _ => true
  | _ => false

/-- Creation of the identity or the configuration bundle. -/
def Op.isIdentityOrConfigCreate : Op → Bool
  | Op.createServiceAccount _ => true
  | Op.createConfigMap _ => true
  | _ => false

/-- Operations of the Status Synchronizer: the status computation, the
re-fetch and the status write-back. -/
def Op.isStatusOp : Op → Bool
  | Op.getCuratorStatus _ => true
  | Op.getClusterLogging _ _ => true
  | Op.updateClusterLogging _ => true
  | _ => false

/-- opsOrdered p q tr is true when every p-operation of the trace occurs
before every q-operation: no p-operation strictly follows a q-operation. -/
def opsOrdered (p q : Op → Bool) : List Op → Bool
  | [] => true
  | o :: rest => ((!q o) || rest.all (fun x => !p x)) && opsOrdered p q rest

/-- A trace whose operations appear in nondecreasing stage order. -/
def stageMono (tr : List Op) : Prop :=
  List.Pairwise (fun a b => Op.stage a ≤ Op.stage b) tr

/-- The trace of a possibly-panicking reconciliation result. -/
def traceOf : Option (Option ReconcileError × List Op) → List Op
  | some (_, tr) => tr
  | none => []

/-- The suspend-difference condition of the diff policy: both pointers non-nil
and the values unequal. -/
def suspendCond (current desired : CronJob) : Bool :=
  match current.spec.suspend, desired.spec.suspend with
  | some cs, some ds => !decide (cs = ds)
  | _, _ => false

/-- Agreement of two cron jobs on every field outside the diff policy's three
mutable fields (schedule, suspend, first container image), excluding the
container lists which are compared by `containersAgreeExceptImage`. -/
def nonContainerAgree (u live : CronJob) : Prop :=
  u.name = live.name ∧
  u.ns = live.ns ∧
  u.ownerRefs = live.ownerRefs ∧
  u.spec.successfulJobsHistoryLimit = live.spec.successfulJobsHistoryLimit ∧
  u.spec.failedJobsHistoryLimit = live.spec.failedJobsHistoryLimit ∧
  u.spec.concurrencyPolicy = live.spec.concurrencyPolicy ∧
  u.spec.jobTemplate.backoffLimit = live.spec.jobTemplate.backoffLimit ∧
  u.spec.jobTemplate.parallelism = live.spec.jobTemplate.parallelism ∧
  u.spec.jobTemplate.template.name = live.spec.jobTemplate.template.name ∧
  u.spec.jobTemplate.template.ns = live.spec.jobTemplate.template.ns ∧
  u.spec.jobTemplate.template.labels = live.spec.jobTemplate.template.labels ∧
  u.spec.jobTemplate.template.spec.serviceAccountName =
    live.spec.jobTemplate.template.spec.serviceAccountName ∧
  u.spec.jobTemplate.template.spec.volumes =
    live.spec.jobTemplate.template.spec.volumes ∧
  u.spec.jobTemplate.template.spec.restartPolicy =
    live.spec.jobTemplate.template.spec.restartPolicy ∧
  u.spec.jobTemplate.template.spec.terminationGracePeriodSeconds =
    live.spec.jobTemplate.template.spec.terminationGracePeriodSeconds

instance (u live : CronJob) : Decidable (nonContainerAgree u live) := by
  unfold nonContainerAgree; exact inferInstance

/-- Agreement of two container lists on everything except the image of the
first container: same shape, equal tails, and equal first containers in every
field but the image. -/
def containersAgreeExceptImage : List Container → List Container → Bool
  | u0 :: ut, l0 :: lt =>
      decide (u0.name = l0.name) && decide (u0.imagePullPolicy = l0.imagePullPolicy) &&
      decide (u0.resources = l0.resources) && decide (u0.env = l0.env) &&
      decide (u0.volumeMounts = l0.volumeMounts) && decide (ut = lt)
  | u, l => decide (u = l)

/-- Frame agreement of a patched cron job with the live object it was derived
from: equality on every field except possibly the schedule, the suspend flag
and the first container's image. -/
def frameAgrees (u live : CronJob) : Bool :=
  decide (nonContainerAgree u live) &&
    containersAgreeExceptImage u.containers live.containers

/-- A sample enabled, managed, combined-topology ClusterLogging. -/
def clHappy : ClusterLogging :=
  { name := "instance"
    ns := "openshift-logging"
    spec := { managementState := ManagementState.managed
              topology := Topology.combined
              curation := { type := CurationType.curator
                            curatorSpec := { schedule := "" }
                            resources := none } }
    status := { curation := { curatorStatus := [] } } }

/-- The sample cluster with the split topology selected. -/
def clSplit : ClusterLogging :=
  { clHappy with spec := { clHappy.spec with topology := Topology.split } }

/-- The sample cluster with the curation feature disabled (a non-curator
type), still fully managed. -/
def clDisabled : ClusterLogging :=
  { clHappy with spec :=
     { clHappy.spec with curation :=
        { clHappy.spec.curation with type := CurationType.other "" } } }

/-- The sample cluster in unmanaged mode. -/
def clUnmanaged : ClusterLogging :=
  { clHappy with spec :=
     { clHappy.spec with managementState := ManagementState.unmanaged } }

/-- The desired combined-topology job of the sample cluster. -/
def jobHappy : CronJob := newCuratorCronJob clHappy "curator" "elasticsearch"

/-- An environment in which every store call succeeds, the live cron job
equals the desired one and the stored status equals the computed one. -/
def envHappy : Env :=
  { createServiceAccountRes := none
    createConfigMapRes := none
    secretStoreRes := none
    createCronJobRes := fun _ => none
    getCronJobRes := fun _ _ => Except.ok jobHappy
    updateCronJobRes := fun _ => none
    getCuratorStatusRes := Except.ok []
    refetchClusterLogging := some clHappy
    updateClusterLoggingRes := fun _ => none
    deleteServiceAccountRes := none
    deleteConfigMapRes := none
    deleteSecretRes := none
    deleteCronJobRes := none }

/-- The happy environment with a fatal (non-not-found) service-account
deletion error. -/
def envDeleteFail : Env :=
  { envHappy with deleteServiceAccountRes := some (K8sError.other "boom") }

/-- A small one-container cron job for concrete diff-policy inputs. -/
def miniJob (sched : String) (img : String) : CronJob :=
  { name := "curator"
    ns := "openshift-logging"
    ownerRefs := ["instance"]
    spec :=
      { successfulJobsHistoryLimit := some 1
        failedJobsHistoryLimit := some 1
        schedule := sched
        suspend := none
        concurrencyPolicy := ""
        jobTemplate :=
          { backoffLimit := some 0
            parallelism := some 1
            template :=
              { name := "curator"
                ns := "openshift-logging"
                labels := []
                spec :=
                  { serviceAccountName := "curator"
                    containers := [{ name := "curator", image := img,
                                     imagePullPolicy := "IfNotPresent",
                                     resources := { limits := [], requests := [] },
                                     env := [], volumeMounts := [] }]
                    volumes := []
                    restartPolicy := "Never"
                    terminationGracePeriodSeconds := some 600 } } } } }

/-- A live job whose schedule drifted from the desired `miniJob "b" "img"`. -/
def miniLive : CronJob := miniJob "a" "img"

/-- The desired job for the drift witnesses. -/
def miniDesired : CronJob := miniJob "b" "img"

/-- The happy environment fetching the drifted mini live job. -/
def envDrift : Env :=
  { envHappy with getCronJobRes := fun _ _ => Except.ok miniLive }

/-- The happy environment whose cron-job fetch reports not-found. -/
def envNotFound : Env :=
  { envHappy with getCronJobRes := fun _ _ => Except.error K8sError.notFound }

/-- The happy environment whose cron-job fetch fails with an unclassified
store error. -/
def envGetFail : Env :=
  { envHappy with getCronJobRes := fun _ _ => Except.error (K8sError.other "io") }

/-! Helper lemmas about the three checks of isCuratorDifferent. -/

theorem checkSchedule_suspend (current desired : CronJob) :
    ((checkSchedule current desired).1).spec.suspend = current.spec.suspend := by
  unfold checkSchedule; split <;> rfl

theorem checkSchedule_containers (current desired : CronJob) :
    ((checkSchedule current desired).1).containers = current.containers := by
  unfold checkSchedule; split <;> rfl

theorem checkSchedule_snd (current desired : CronJob) :
    (checkSchedule current desired).2 =
      !decide (current.spec.schedule = desired.spec.schedule) := by
  unfold checkSchedule; split <;> simp_all

theorem checkSuspend_containers (st : CronJob × Bool) (desired : CronJob) :
    ((checkSuspend st desired).1).containers = st.1.containers := by
  unfold checkSuspend
  split
  · split <;> rfl
  · rfl

theorem checkSuspend_snd (st : CronJob × Bool) (desired : CronJob) :
    (checkSuspend st desired).2 = (st.2 || suspendCond st.1 desired) := by
  unfold checkSuspend suspendCond
  rcases hcs : st.1.spec.suspend with _ | cs <;>
    rcases hds : desired.spec.suspend with _ | ds <;> simp [hcs, hds]
  by_cases hcd : cs = ds <;> simp [hcd]

theorem suspendCond_checkSchedule (current desired : CronJob) :
    suspendCond (checkSchedule current desired).1 desired = suspendCond current desired := by
  unfold suspendCond
  rw [checkSchedule_suspend]

theorem suspendCond_eq_true (current desired : CronJob) :
    suspendCond current desired = true ↔
      ∃ x y, current.spec.suspend = some x ∧ desired.spec.suspend = some y ∧ x ≠ y := by
  unfold suspendCond
  rcases hcs : current.spec.suspend with _ | cs <;>
    rcases hds : desired.spec.suspend with _ | ds <;> simp

theorem checkImage_snd (st : CronJob × Bool) (desired : CronJob)
    (c0 : Container) (ct : List Container) (d0 : Container) (dt : List Container)
    (h1 : st.1.containers = c0 :: ct) (h2 : desired.containers = d0 :: dt) :
    (checkImage st desired).map Prod.snd =
      some (st.2 || !decide (c0.image = d0.image)) := by
  unfold checkImage
  rw [show st.1.spec.jobTemplate.template.spec.containers = c0 :: ct from h1,
      show desired.spec.jobTemplate.template.spec.containers = d0 :: dt from h2]
  by_cases himg : c0.image = d0.image <;> simp [himg]

theorem checkImage_isSome (st : CronJob × Bool) (desired : CronJob) :
    (checkImage st desired).isSome =
      (!decide (st.1.containers = []) && !decide (desired.containers = [])) := by
  unfold checkImage CronJob.containers
  rcases h1 : st.1.spec.jobTemplate.template.spec.containers with _ | ⟨c0, ct⟩ <;>
    rcases h2 : desired.spec.jobTemplate.template.spec.containers with _ | ⟨d0, dt⟩ <;>
      simp [h1, h2]
  split <;> simp

/-! Frame lemmas: each check leaves every field outside the diff policy
unchanged. -/

theorem nonContainerAgree_refl (c : CronJob) : nonContainerAgree c c :=
  ⟨rfl, rfl, rfl, rfl, rfl, rfl, rfl, rfl, rfl, rfl, rfl, rfl, rfl, rfl, rfl⟩

theorem nonContainerAgree_trans {a b c : CronJob}
    (h1 : nonContainerAgree a b) (h2 : nonContainerAgree b c) :
    nonContainerAgree a c := by
  obtain ⟨p1, p2, p3, p4, p5, p6, p7, p8, p9, p10, p11, p12, p13, p14, p15⟩ := h1
  obtain ⟨q1, q2, q3, q4, q5, q6, q7, q8, q9, q10, q11, q12, q13, q14, q15⟩ := h2
  exact ⟨p1.trans q1, p2.trans q2, p3.trans q3, p4.trans q4, p5.trans q5,
         p6.trans q6, p7.trans q7, p8.trans q8, p9.trans q9, p10.trans q10,
         p11.trans q11, p12.trans q12, p13.trans q13, p14.trans q14, p15.trans q15⟩

theorem containersAgree_refl (l : List Container) :
    containersAgreeExceptImage l l = true := by
  cases l <;> simp [containersAgreeExceptImage]

theorem containersAgree_trans {a b c : List Container}
    (h1 : containersAgreeExceptImage a b = true)
    (h2 : containersAgreeExceptImage b c = true) :
    containersAgreeExceptImage a c = true := by
  cases a <;> cases b <;> cases c <;> simp_all [containersAgreeExceptImage]

theorem frameAgrees_refl (c : CronJob) : frameAgrees c c = true := by
  simp [frameAgrees, nonContainerAgree_refl, containersAgree_refl]

theorem frameAgrees_trans {a b c : CronJob}
    (h1 : frameAgrees a b = true) (h2 : frameAgrees b c = true) :
    frameAgrees a c = true := by
  simp only [frameAgrees, Bool.and_eq_true, decide_eq_true_eq] at h1 h2 ⊢
  exact ⟨nonContainerAgree_trans h1.1 h2.1, containersAgree_trans h1.2 h2.2⟩

theorem frame_checkSchedule (current desired : CronJob) :
    frameAgrees (checkSchedule current desired).1 current = true := by
  unfold checkSchedule
  split
  · simp [frameAgrees, nonContainerAgree, containersAgree_refl, CronJob.containers]
  · exact frameAgrees_refl _

theorem frame_checkSuspend (st : CronJob × Bool) (desired : CronJob) :
    frameAgrees (checkSuspend st desired).1 st.1 = true := by
  unfold checkSuspend
  split
  · split
    · simp [frameAgrees, nonContainerAgree, containersAgree_refl, CronJob.containers]
    · exact frameAgrees_refl _
  · exact frameAgrees_refl _

theorem frame_checkImage (st : CronJob × Bool) (desired : CronJob)
    (u : CronJob) (b : Bool) (heq : checkImage st desired = some (u, b)) :
    frameAgrees u st.1 = true := by
  unfold checkImage at heq
  split at heq
  case _ c0 ct d0 dt h1 h2 =>
    split at heq
    · cases heq
      simp [frameAgrees, nonContainerAgree, containersAgreeExceptImage,
            CronJob.containers, h1]
    · cases heq
      exact frameAgrees_refl _
  case _ => cases heq

theorem isCuratorDifferent_frame (current desired u : CronJob) (b : Bool)
    (heq : isCuratorDifferent current desired = some (u, b)) :
    frameAgrees u current = true := by
  unfold isCuratorDifferent at heq
  exact frameAgrees_trans (frame_checkImage _ _ _ _ heq)
    (frameAgrees_trans (frame_checkSuspend _ _) (frame_checkSchedule _ _))

/-- C5: for every pair of live and desired scheduled-job specs (with the
container lists non-empty, which the unchecked index requires),
isCuratorDifferent reports changed = true if and only if the schedules are
unequal, or both suspend flags are present and unequal, or the first container
images are unequal; no other field difference sets the flag. -/
theorem isCuratorDifferent_changed_iff (current desired : CronJob)
    (c0 : Container) (ct : List Container) (d0 : Container) (dt : List Container)
    (h1 : current.containers = c0 :: ct) (h2 : desired.containers = d0 :: dt) :
    ∀ u b, isCuratorDifferent current desired = some (u, b) →
      (b = true ↔
        current.spec.schedule ≠ desired.spec.schedule ∨
        (∃ x y, current.spec.suspend = some x ∧ desired.spec.suspend = some y ∧ x ≠ y) ∨
        c0.image ≠ d0.image) := by
  intro u b heq
  have hc : ((checkSuspend (checkSchedule current desired) desired).1).containers =
      c0 :: ct := by
    rw [checkSuspend_containers, checkSchedule_containers]; exact h1
  have hsnd := checkImage_snd (checkSuspend (checkSchedule current desired) desired)
    desired c0 ct d0 dt hc h2
  unfold isCuratorDifferent at heq
  rw [heq] at hsnd
  simp only [Option.map_some'] at hsnd
  have hb : b = ((checkSuspend (checkSchedule current desired) desired).2 ||
      !decide (c0.image = d0.image)) := Option.some.inj hsnd
  rw [checkSuspend_snd, checkSchedule_snd, suspendCond_checkSchedule] at hb
  subst hb
  simp [suspendCond_eq_true current desired, or_assoc]

/-- Witness for C5 at a concrete drifted schedule: the changed flag is true
and the right-hand side of the equivalence holds through the schedule
disjunct. -/
theorem isCuratorDifferent_changed_iff_witness :
    miniLive.containers =
      [{ name := "curator", image := "img", imagePullPolicy := "IfNotPresent",
         resources := { limits := [], requests := [] }, env := [], volumeMounts := [] }] ∧
    miniDesired.containers =
      [{ name := "curator", image := "img", imagePullPolicy := "IfNotPresent",
         resources := { limits := [], requests := [] }, env := [], volumeMounts := [] }] ∧
    (true = true ↔
      miniLive.spec.schedule ≠ miniDesired.spec.schedule ∨
      (∃ x y, miniLive.spec.suspend = some x ∧ miniDesired.spec.suspend = some y ∧ x ≠ y) ∨
      ({ name := "curator", image := "img", imagePullPolicy := "IfNotPresent",
         resources := { limits := [], requests := [] }, env := [],
         volumeMounts := [] } : Container).image ≠
        ({ name := "curator", image := "img", imagePullPolicy := "IfNotPresent",
           resources := { limits := [], requests := [] }, env := [],
           volumeMounts := [] } : Container).image) := by
  refine ⟨by decide, by decide, ?_⟩
  exact isCuratorDifferent_changed_iff miniLive miniDesired _ [] _ []
    (by decide) (by decide) (miniJob "b" "img") true (by decide)

/-- C6: every object handed to the store Update by updateCuratorIfRequired
agrees with the freshly fetched live object on every field except possibly
the schedule, the suspend flag and the first container's image; in particular
the job's name and namespace are never changed by a patch. -/
theorem updateCuratorIfRequired_frame (env : Env) (desired live : CronJob)
    (r : Option ReconcileError) (tr : List Op) (u : CronJob)
    (hget : env.getCronJobRes desired.name desired.ns = Except.ok live)
    (heq : updateCuratorIfRequired env desired = some (r, tr))
    (hmem : Op.updateCronJob u ∈ tr) :
    frameAgrees u live = true := by
  unfold updateCuratorIfRequired at heq
  split at heq
  next e hE =>
    rw [hget] at hE
    cases hE
  next current hOk =>
    rw [hget] at hOk
    injection hOk with hcl
    subst hcl
    split at heq
    next hnone => cases heq
    next c2 different hdiff =>
      split at heq
      · split at heq <;> cases heq <;> simp at hmem <;> subst hmem <;>
          exact isCuratorDifferent_frame live desired _ _ hdiff
      · cases heq
        simp at hmem

/-- Witness for C6: the drifted mini job is patched back and the submitted
object keeps every frame field of the live object. -/
theorem updateCuratorIfRequired_frame_witness :
    envDrift.getCronJobRes miniDesired.name miniDesired.ns = Except.ok miniLive ∧
    updateCuratorIfRequired envDrift miniDesired =
      some (none, [Op.getCronJob miniDesired.name miniDesired.ns,
                   Op.updateCronJob (miniJob "b" "img")]) ∧
    Op.updateCronJob (miniJob "b" "img") ∈
      [Op.getCronJob miniDesired.name miniDesired.ns,
       Op.updateCronJob (miniJob "b" "img")] ∧
    frameAgrees (miniJob "b" "img") miniLive = true := by
  have hget : envDrift.getCronJobRes miniDesired.name miniDesired.ns =
      Except.ok miniLive := rfl
  have heq : updateCuratorIfRequired envDrift miniDesired =
      some (none, [Op.getCronJob miniDesired.name miniDesired.ns,
                   Op.updateCronJob (miniJob "b" "img")]) := by decide
  exact ⟨hget, heq, by decide,
    updateCuratorIfRequired_frame envDrift miniDesired miniLive none _
      (miniJob "b" "img") hget heq (by decide)⟩

/-- C7: a NotFound from the fetch of the Drift Detector is benign: success is
returned and no Update is issued (the trace holds only the get); any other
fetch error is wrapped and returned as fatal. -/
theorem updateCuratorIfRequired_getErr (env : Env) (desired : CronJob) :
    (env.getCronJobRes desired.name desired.ns = Except.error K8sError.notFound →
      updateCuratorIfRequired env desired =
        some (none, [Op.getCronJob desired.name desired.ns])) ∧
    (∀ e, e ≠ K8sError.notFound →
      env.getCronJobRes desired.name desired.ns = Except.error e →
      updateCuratorIfRequired env desired =
        some (some (ReconcileError.cronJobGet e),
              [Op.getCronJob desired.name desired.ns])) := by
  constructor
  · intro hget; unfold updateCuratorIfRequired; rw [hget]; simp
  · intro e he hget; unfold updateCuratorIfRequired; rw [hget]; simp [he]

/-- Witness for C7: with a not-found fetch the drift step succeeds and only
the get appears in the trace; with an unclassified fetch error the wrapped
error is returned. -/
theorem updateCuratorIfRequired_getErr_witness :
    updateCuratorIfRequired envNotFound miniDesired =
      some (none, [Op.getCronJob miniDesired.name miniDesired.ns]) ∧
    updateCuratorIfRequired envGetFail miniDesired =
      some (some (ReconcileError.cronJobGet (K8sError.other "io")),
            [Op.getCronJob miniDesired.name miniDesired.ns]) := by
  exact ⟨(updateCuratorIfRequired_getErr envNotFound miniDesired).1 rfl,
         (updateCuratorIfRequired_getErr envGetFail miniDesired).2
           (K8sError.other "io") (by decide) rfl⟩

/-- C10: isCuratorDifferent is defined (does not hit the unchecked index)
exactly when both the live and the desired container lists are non-empty; a
live job with zero containers makes the index access fail. -/
theorem isCuratorDifferent_defined_iff (current desired : CronJob) :
    (isCuratorDifferent current desired).isSome = true ↔
      (current.containers ≠ [] ∧ desired.containers ≠ []) := by
  unfold isCuratorDifferent
  rw [checkImage_isSome, checkSuspend_containers, checkSchedule_containers]
  simp

/-! Membership lemmas for the conflict-retry loops: with a fixed environment
every attempt issues the same operations, so every operation of the retried
trace already occurs in the single-attempt trace. -/

theorem retryCron_none (trb : List Op) (n : Nat) :
    retryOnConflictCron n (some (none, trb)) = some (none, trb) := by
  cases n <;> rfl

theorem retryCron_noconflict (e : ReconcileError) (trb : List Op) (n : Nat)
    (hc : e.isConflict = false) :
    retryOnConflictCron n (some (some e, trb)) = some (some e, trb) := by
  cases n with
  | zero => rfl
  | succ n => simp [retryOnConflictCron, hc]

theorem retryCron_mem_conflict (e : ReconcileError) (trb : List Op)
    (hc : e.isConflict = true) :
    ∀ n r tr, retryOnConflictCron n (some (some e, trb)) = some (r, tr) →
      ∀ o ∈ tr, o ∈ trb := by
  intro n
  induction n with
  | zero =>
      intro r tr h o ho
      cases h
      exact ho
  | succ n ih =>
      intro r tr h o ho
      simp only [retryOnConflictCron] at h
      rw [if_pos hc] at h
      by_cases hn : n = 0
      · rw [if_pos hn] at h; cases h; exact ho
      · rw [if_neg hn] at h
        cases hrec : retryOnConflictCron n (some (some e, trb)) with
        | none => rw [hrec] at h; cases h
        | some p =>
            obtain ⟨r2, tr2⟩ := p
            rw [hrec] at h
            cases h
            rcases List.mem_append.mp ho with h1 | h2
            · exact h1
            · exact ih _ _ hrec o h2

theorem retryOnConflictCron_mem (rb : Option ReconcileError) (trb : List Op)
    (n : Nat) (r : Option ReconcileError) (tr : List Op)
    (h : retryOnConflictCron n (some (rb, trb)) = some (r, tr)) :
    ∀ o ∈ tr, o ∈ trb := by
  cases rb with
  | none =>
      rw [retryCron_none] at h
      cases h
      exact fun o ho => ho
  | some e =>
      by_cases hc : e.isConflict = true
      · exact retryCron_mem_conflict e trb hc n r tr h
      · rw [retryCron_noconflict e trb n (by simpa using hc)] at h
        cases h
        exact fun o ho => ho

theorem retryStatus_none (trb : List Op) (n : Nat) :
    retryOnConflictStatus n (none, trb) = (none, trb) := by
  cases n <;> rfl

theorem retryStatus_noconflict (e : K8sError) (trb : List Op) (n : Nat)
    (hc : ¬ e = K8sError.conflict) :
    retryOnConflictStatus n (some e, trb) = (some e, trb) := by
  cases n with
  | zero => rfl
  | succ n => simp [retryOnConflictStatus, hc]

theorem retryStatus_mem_conflict (trb : List Op) :
    ∀ n r tr, retryOnConflictStatus n (some K8sError.conflict, trb) = (r, tr) →
      ∀ o ∈ tr, o ∈ trb := by
  intro n
  induction n with
  | zero =>
      intro r tr h o ho
      cases h
      exact ho
  | succ n ih =>
      intro r tr h o ho
      simp only [retryOnConflictStatus, if_true] at h
      by_cases hn : n = 0
      · rw [if_pos hn] at h; cases h; exact ho
      · rw [if_neg hn] at h
        cases hrec : retryOnConflictStatus n (some K8sError.conflict, trb) with
        | mk r2 tr2 =>
            rw [hrec] at h
            cases h
            rcases List.mem_append.mp ho with h1 | h2
            · exact h1
            · exact ih _ _ hrec o h2

theorem retryOnConflictStatus_mem (rb : Option K8sError) (trb : List Op)
    (n : Nat) (r : Option K8sError) (tr : List Op)
    (h : retryOnConflictStatus n (rb, trb) = (r, tr)) :
    ∀ o ∈ tr, o ∈ trb := by
  cases rb with
  | none =>
      rw [retryStatus_none] at h
      cases h
      exact fun o ho => ho
  | some e =>
      by_cases hc : e = K8sError.conflict
      · subst hc
        exact retryStatus_mem_conflict trb n r tr h
      · rw [retryStatus_noconflict e trb n hc] at h
        cases h
        exact fun o ho => ho

theorem retryCron_bodyNone (n : Nat) : retryOnConflictCron n none = none := by
  cases n <;> rfl

/-! Stage classification of the operations each component can issue. -/

theorem createOrUpdateCuratorServiceAccount_ops (env : Env) (cluster : ClusterLogging)
    (r : Option ReconcileError) (tr : List Op)
    (h : createOrUpdateCuratorServiceAccount env cluster = (r, tr)) :
    ∀ o ∈ tr, Op.stage o = 0 := by
  unfold createOrUpdateCuratorServiceAccount at h
  split at h <;> cases h <;> intro o ho <;> simp at ho <;> subst ho <;> rfl

theorem createOrUpdateCuratorConfigMap_ops (env : Env) (cluster : ClusterLogging)
    (r : Option ReconcileError) (tr : List Op)
    (h : createOrUpdateCuratorConfigMap env cluster = (r, tr)) :
    ∀ o ∈ tr, Op.stage o = 1 := by
  unfold createOrUpdateCuratorConfigMap at h
  split at h <;> cases h <;> intro o ho <;> simp at ho <;> subst ho <;> rfl

theorem createOrUpdateCuratorSecret_ops (env : Env) (cluster : ClusterLogging)
    (r : Option ReconcileError) (tr : List Op)
    (h : createOrUpdateCuratorSecret env cluster = (r, tr)) :
    ∀ o ∈ tr, Op.stage o = 3 := by
  unfold createOrUpdateCuratorSecret at h
  split at h <;> cases h <;> intro o ho <;> simp at ho <;> subst ho <;> rfl

theorem updateCuratorIfRequired_ops (env : Env) (desired : CronJob)
    (r : Option ReconcileError) (tr : List Op)
    (h : updateCuratorIfRequired env desired = some (r, tr)) :
    ∀ o ∈ tr, Op.stage o = 2 := by
  unfold updateCuratorIfRequired at h
  split at h
  · split at h <;> cases h <;> intro o ho <;> simp at ho <;> subst ho <;> rfl
  · split at h
    next => cases h
    next c2 different hdiff =>
      split at h
      · split at h <;> cases h <;> intro o ho <;> simp at ho <;>
          rcases ho with rfl | rfl <;> rfl
      · cases h
        intro o ho
        simp at ho
        subst ho
        rfl

theorem statusSyncBody_ops (env : Env) (cluster : ClusterLogging)
    (st : CuratorStatus) (r : Option K8sError) (tr : List Op)
    (h : statusSyncBody env cluster st = (r, tr)) :
    ∀ o ∈ tr, Op.stage o = 5 := by
  unfold statusSyncBody at h
  split at h
  · split at h <;> cases h <;> intro o ho <;> simp at ho
    · rcases ho with rfl | rfl <;> rfl
    · subst ho; rfl
  · cases h
    intro o ho
    simp at ho
    subst ho
    rfl

theorem driftStep_ops (env : Env) (cluster : ClusterLogging) (job : CronJob)
    (r : Option ReconcileError) (tr : List Op)
    (h : driftStep env cluster job = some (r, tr)) :
    ∀ o ∈ tr, Op.stage o = 2 ∧
      cluster.spec.managementState = ManagementState.managed := by
  unfold driftStep at h
  split at h
  next hman =>
    cases hbody : updateCuratorIfRequired env job with
    | none => rw [hbody, retryCron_bodyNone] at h; cases h
    | some p =>
        obtain ⟨rb, trb⟩ := p
        rw [hbody] at h
        intro o ho
        exact ⟨updateCuratorIfRequired_ops env job rb trb hbody o
                 (retryOnConflictCron_mem rb trb _ _ _ h o ho), hman⟩
  next hman =>
    cases h
    intro o ho
    simp at ho

theorem createOrUpdateCuratorCronJob_ops (env : Env) (cluster : ClusterLogging)
    (r : Option ReconcileError) (tr : List Op)
    (h : createOrUpdateCuratorCronJob env cluster = some (r, tr)) :
    ∀ o ∈ tr, Op.stage o = 2 ∧
      (cluster.spec.managementState ≠ ManagementState.managed → o.isDrift = false) := by
  unfold createOrUpdateCuratorCronJob at h
  split at h
  · -- combined topology
    split at h
    · cases h
      intro o ho; simp at ho; subst ho; exact ⟨rfl, fun _ => rfl⟩
    · split at h
      next => cases h
      next rD trD hD =>
        cases h
        intro o ho
        rcases List.mem_cons.mp ho with rfl | ho2
        · exact ⟨rfl, fun _ => rfl⟩
        · have hfact := driftStep_ops env cluster _ _ trD hD o ho2
          exact ⟨hfact.1, fun hcon => absurd hfact.2 hcon⟩
  · -- split topology
    split at h
    · cases h
      intro o ho; simp at ho; subst ho; exact ⟨rfl, fun _ => rfl⟩
    · split at h
      next => cases h
      next e trA hA =>
        cases h
        intro o ho
        rcases List.mem_cons.mp ho with rfl | ho2
        · exact ⟨rfl, fun _ => rfl⟩
        · have hfact := driftStep_ops env cluster _ _ trA hA o ho2
          exact ⟨hfact.1, fun hcon => absurd hfact.2 hcon⟩
      next trA hA =>
        split at h
        · cases h
          intro o ho
          rcases List.mem_cons.mp ho with rfl | ho2
          · exact ⟨rfl, fun _ => rfl⟩
          · rcases List.mem_append.mp ho2 with ho3 | ho3
            · have hfact := driftStep_ops env cluster _ _ trA hA o ho3
              exact ⟨hfact.1, fun hcon => absurd hfact.2 hcon⟩
            · simp at ho3; subst ho3; exact ⟨rfl, fun _ => rfl⟩
        · split at h
          next => cases h
          next rI trI hI =>
            cases h
            intro o ho
            rcases List.mem_cons.mp ho with rfl | ho2
            · exact ⟨rfl, fun _ => rfl⟩
            · rcases List.mem_append.mp ho2 with ho3 | ho3
              · have hfact := driftStep_ops env cluster _ _ trA hA o ho3
                exact ⟨hfact.1, fun hcon => absurd hfact.2 hcon⟩
              · rcases List.mem_cons.mp ho3 with rfl | ho4
                · exact ⟨rfl, fun _ => rfl⟩
                · have hfact := driftStep_ops env cluster _ _ trI hI o ho4
                  exact ⟨hfact.1, fun hcon => absurd hfact.2 hcon⟩

theorem statusRetry_ops (env : Env) (cluster : ClusterLogging) (st : CuratorStatus)
    (r : Option K8sError) (tr : List Op)
    (h : retryOnConflictStatus defaultRetrySteps (statusSyncBody env cluster st) = (r, tr)) :
    ∀ o ∈ tr, Op.stage o = 5 := by
  cases hbody : statusSyncBody env cluster st with
  | mk rb trb =>
      rw [hbody] at h
      intro o ho
      exact statusSyncBody_ops env cluster st rb trb hbody o
        (retryOnConflictStatus_mem rb trb _ _ _ h o ho)

/-! Assembly of the whole-reconciliation trace: the operations appear in
nondecreasing stage order. -/

theorem stageMono_of_const {tr : List Op} {s : Nat} (h : ∀ o ∈ tr, Op.stage o = s) :
    stageMono tr := by
  induction tr with
  | nil => exact List.Pairwise.nil
  | cons o rest ih =>
      refine List.Pairwise.cons ?_ (ih fun x hx => h x (List.mem_cons_of_mem o hx))
      intro b hb
      rw [h o (List.mem_cons_self o rest), h b (List.mem_cons_of_mem o hb)]

theorem stageMono_append {l1 l2 : List Op} (h1 : stageMono l1) (h2 : stageMono l2)
    (hle : ∀ a ∈ l1, ∀ b ∈ l2, Op.stage a ≤ Op.stage b) : stageMono (l1 ++ l2) :=
  List.pairwise_append.mpr ⟨h1, h2, hle⟩

theorem stageMono_concat (s : Nat) {l1 l2 : List Op}
    (h1 : stageMono l1) (hb1 : ∀ o ∈ l1, Op.stage o ≤ s)
    (h2 : stageMono l2) (hb2 : ∀ o ∈ l2, s ≤ Op.stage o) :
    stageMono (l1 ++ l2) :=
  stageMono_append h1 h2 fun a ha b hb => le_trans (hb1 a ha) (hb2 b hb)

theorem stageLe_append (s : Nat) {l1 l2 : List Op}
    (h1 : ∀ o ∈ l1, Op.stage o ≤ s) (h2 : ∀ o ∈ l2, Op.stage o ≤ s) :
    ∀ o ∈ l1 ++ l2, Op.stage o ≤ s := by
  intro o ho
  rcases List.mem_append.mp ho with h | h
  exacts [h1 o h, h2 o h]

theorem createOrUpdateCuration_stageMono (env : Env) (cluster : ClusterLogging)
    (hC : cluster.spec.curation.type = CurationType.curator)
    (r : Option ReconcileError) (tr : List Op)
    (h : CreateOrUpdateCuration env cluster = some (r, tr)) :
    stageMono tr := by
  unfold CreateOrUpdateCuration at h
  rw [if_pos hC] at h
  split at h
  next e t1 hSA =>
    cases h
    exact stageMono_of_const (createOrUpdateCuratorServiceAccount_ops env cluster _ _ hSA)
  next t1 hSA =>
    have f1 := createOrUpdateCuratorServiceAccount_ops env cluster _ _ hSA
    split at h
    next e t2 hCM =>
      cases h
      have f2 := createOrUpdateCuratorConfigMap_ops env cluster _ _ hCM
      exact stageMono_concat 1 (stageMono_of_const f1)
        (fun o ho => le_trans (le_of_eq (f1 o ho)) (by omega))
        (stageMono_of_const f2)
        (fun o ho => le_of_eq (f2 o ho).symm)
    next t2 hCM =>
      have f2 := createOrUpdateCuratorConfigMap_ops env cluster _ _ hCM
      have m12 : stageMono (t1 ++ t2) :=
        stageMono_concat 1 (stageMono_of_const f1)
          (fun o ho => le_trans (le_of_eq (f1 o ho)) (by omega))
          (stageMono_of_const f2)
          (fun o ho => le_of_eq (f2 o ho).symm)
      have b12 : ∀ o ∈ t1 ++ t2, Op.stage o ≤ 2 :=
        stageLe_append 2 (fun o ho => le_trans (le_of_eq (f1 o ho)) (by omega))
          (fun o ho => le_trans (le_of_eq (f2 o ho)) (by omega))
      split at h
      next => cases h
      next e t3 hCron =>
        cases h
        have f3 := createOrUpdateCuratorCronJob_ops env cluster _ _ hCron
        exact stageMono_concat 2 m12 b12
          (stageMono_of_const fun o ho => (f3 o ho).1)
          (fun o ho => le_of_eq ((f3 o ho).1).symm)
      next t3 hCron =>
        have f3 := createOrUpdateCuratorCronJob_ops env cluster _ _ hCron
        have m123 : stageMono (t1 ++ t2 ++ t3) :=
          stageMono_concat 2 m12 b12
            (stageMono_of_const fun o ho => (f3 o ho).1)
            (fun o ho => le_of_eq ((f3 o ho).1).symm)
        have b123 : ∀ o ∈ t1 ++ t2 ++ t3, Op.stage o ≤ 3 :=
          stageLe_append 3 (fun o ho => le_trans (b12 o ho) (by omega))
            (fun o ho => le_trans (le_of_eq ((f3 o ho).1)) (by omega))
        split at h
        next e t4 hSec =>
          cases h
          have f4 := createOrUpdateCuratorSecret_ops env cluster _ _ hSec
          exact stageMono_concat 3 m123 b123
            (stageMono_of_const f4)
            (fun o ho => le_of_eq (f4 o ho).symm)
        next t4 hSec =>
          have f4 := createOrUpdateCuratorSecret_ops env cluster _ _ hSec
          have m1234 : stageMono (t1 ++ t2 ++ t3 ++ t4) :=
            stageMono_concat 3 m123 b123
              (stageMono_of_const f4)
              (fun o ho => le_of_eq (f4 o ho).symm)
          have b1234 : ∀ o ∈ t1 ++ t2 ++ t3 ++ t4, Op.stage o ≤ 4 :=
            stageLe_append 4 (fun o ho => le_trans (b123 o ho) (by omega))
              (fun o ho => le_trans (le_of_eq (f4 o ho)) (by omega))
          split at h
          next msg hStat =>
            cases h
            have f5 : ∀ o ∈ [Op.getCuratorStatus cluster.ns], Op.stage o = 4 := by
              intro o ho; simp at ho; subst ho; rfl
            exact stageMono_concat 4 m1234 b1234 (stageMono_of_const f5)
              (fun o ho => le_of_eq (f5 o ho).symm)
          next curatorStatus hStat =>
            split at h <;> rename_i t5 hRet <;> cases h <;>
            · have f5 := statusRetry_ops env cluster _ _ _ hRet
              refine stageMono_concat 4 m1234 b1234 ?_ (fun o ho => ?_)
              · refine List.Pairwise.cons (fun b hb => ?_) (stageMono_of_const f5)
                rw [f5 b hb]
                simp [Op.stage]
              · rcases List.mem_cons.mp ho with rfl | ho2
                · exact le_refl 4
                · rw [f5 o ho2]; omega

theorem opsOrdered_of_stageMono {p q : Op → Bool} :
    ∀ {tr : List Op}, stageMono tr →
      (∀ a b : Op, p a = true → q b = true → Op.stage a < Op.stage b) →
      opsOrdered p q tr = true := by
  intro tr
  induction tr with
  | nil => intro _ _; rfl
  | cons o rest ih =>
      intro hm hpq
      obtain ⟨ho, hrest⟩ := List.pairwise_cons.mp hm
      unfold opsOrdered
      refine Bool.and_eq_true_iff.mpr ⟨?_, ih hrest hpq⟩
      by_cases hq : q o = true
      · refine Bool.or_eq_true_iff.mpr (Or.inr ?_)
        rw [List.all_eq_true]
        intro x hx
        by_cases hp : p x = true
        · have h1 := hpq x o hp hq
          have h2 := ho x hx
          omega
        · simp [Bool.not_eq_true] at hp
          simp [hp]
      · simp [Bool.not_eq_true] at hq
        simp [hq]

theorem isDrift_stage (o : Op) (h : o.isDrift = true) : Op.stage o = 2 := by
  cases o <;> simp [Op.isDrift] at h <;> rfl

/-- Inside the enabled branch, a drift operation (fetch or patch of a
scheduled job) appears in the trace only when the cluster is fully managed. -/
theorem createOrUpdateCuration_drift_managed (env : Env) (cluster : ClusterLogging)
    (hC : cluster.spec.curation.type = CurationType.curator)
    (r : Option ReconcileError) (tr : List Op)
    (h : CreateOrUpdateCuration env cluster = some (r, tr)) :
    ∀ o ∈ tr, o.isDrift = true →
      cluster.spec.managementState = ManagementState.managed := by
  intro o ho hd
  by_cases hman : cluster.spec.managementState = ManagementState.managed
  · exact hman
  · exfalso
    unfold CreateOrUpdateCuration at h
    rw [if_pos hC] at h
    split at h
    next e t1 hSA =>
      cases h
      have hf := createOrUpdateCuratorServiceAccount_ops env cluster _ _ hSA o ho
      rw [isDrift_stage o hd] at hf
      omega
    next t1 hSA =>
      split at h
      next e t2 hCM =>
        cases h
        rcases List.mem_append.mp ho with h1 | h2
        · have hf := createOrUpdateCuratorServiceAccount_ops env cluster _ _ hSA o h1
          rw [isDrift_stage o hd] at hf; omega
        · have hf := createOrUpdateCuratorConfigMap_ops env cluster _ _ hCM o h2
          rw [isDrift_stage o hd] at hf; omega
      next t2 hCM =>
        have noDrift12 : ∀ x ∈ t1 ++ t2, x = o → False := by
          intro x hx hxo
          subst hxo
          rcases List.mem_append.mp hx with h1 | h2
          · have hf := createOrUpdateCuratorServiceAccount_ops env cluster _ _ hSA x h1
            rw [isDrift_stage x hd] at hf; omega
          · have hf := createOrUpdateCuratorConfigMap_ops env cluster _ _ hCM x h2
            rw [isDrift_stage x hd] at hf; omega
        split at h
        next => cases h
        next e t3 hCron =>
          cases h
          rcases List.mem_append.mp ho with h12 | h3
          · exact noDrift12 o h12 rfl
          · have hf := (createOrUpdateCuratorCronJob_ops env cluster _ _ hCron o h3).2 hman
            rw [hd] at hf
            cases hf
        next t3 hCron =>
          have noDrift123 : ∀ x ∈ t1 ++ t2 ++ t3, x = o → False := by
            intro x hx hxo
            subst hxo
            rcases List.mem_append.mp hx with h12 | h3
            · exact noDrift12 x h12 rfl
            · have hf := (createOrUpdateCuratorCronJob_ops env cluster _ _ hCron x h3).2 hman
              rw [hd] at hf
              cases hf
          split at h
          next e t4 hSec =>
            cases h
            rcases List.mem_append.mp ho with h123 | h4
            · exact noDrift123 o h123 rfl
            · have hf := createOrUpdateCuratorSecret_ops env cluster _ _ hSec o h4
              rw [isDrift_stage o hd] at hf; omega
          next t4 hSec =>
            have noDrift1234 : ∀ x ∈ t1 ++ t2 ++ t3 ++ t4, x = o → False := by
              intro x hx hxo
              subst hxo
              rcases List.mem_append.mp hx with h123 | h4
              · exact noDrift123 x h123 rfl
              · have hf := createOrUpdateCuratorSecret_ops env cluster _ _ hSec x h4
                rw [isDrift_stage x hd] at hf; omega
            split at h
            next msg hStat =>
              cases h
              rcases List.mem_append.mp ho with h1234 | h5
              · exact noDrift1234 o h1234 rfl
              · simp at h5
                subst h5
                simp [Op.isDrift] at hd
            next curatorStatus hStat =>
              split at h <;> rename_i t5 hRet <;> cases h <;>
              · rcases List.mem_append.mp ho with h1234 | h5
                · exact noDrift1234 o h1234 rfl
                · rcases List.mem_cons.mp h5 with rfl | h6
                  · simp [Op.isDrift] at hd
                  · have hf := statusRetry_ops env cluster _ _ _ hRet o h6
                    rw [isDrift_stage o hd] at hf; omega

/-- C4 counterexample: on a fully successful enabled run, the credential
bundle (secret) is created only after the drift fetch of the scheduled job,
so it is false that all three static resources are created before the Drift
Detector runs. -/
theorem createOrUpdateCuration_c4_counterexample :
    (CreateOrUpdateCuration envHappy clHappy).isSome = true ∧
    opsOrdered Op.isStaticCreate Op.isDrift
      (traceOf (CreateOrUpdateCuration envHappy clHappy)) = false := by
  constructor <;> decide

/-- C4 amended: in the enabled branch the identity and the configuration
bundle are created before any drift operation, every drift operation precedes
the credential-bundle creation, and the credential-bundle creation precedes
every Status Synchronizer operation. -/
theorem createOrUpdateCuration_order (env : Env) (cluster : ClusterLogging)
    (hC : cluster.spec.curation.type = CurationType.curator)
    (r : Option ReconcileError) (tr : List Op)
    (h : CreateOrUpdateCuration env cluster = some (r, tr)) :
    opsOrdered Op.isIdentityOrConfigCreate Op.isDrift tr = true ∧
    opsOrdered Op.isDrift Op.isSecretCreate tr = true ∧
    opsOrdered Op.isSecretCreate Op.isStatusOp tr = true := by
  have hm := createOrUpdateCuration_stageMono env cluster hC r tr h
  refine ⟨opsOrdered_of_stageMono hm ?_, opsOrdered_of_stageMono hm ?_,
          opsOrdered_of_stageMono hm ?_⟩ <;>
    intro a b ha hb <;> cases a <;> cases b <;>
      simp_all [Op.isIdentityOrConfigCreate, Op.isDrift, Op.isSecretCreate,
                Op.isStatusOp, Op.stage]

/-- Witness for the amended C4 at the happy run. -/
theorem createOrUpdateCuration_order_witness :
    clHappy.spec.curation.type = CurationType.curator ∧
    CreateOrUpdateCuration envHappy clHappy =
      some (none, traceOf (CreateOrUpdateCuration envHappy clHappy)) ∧
    (opsOrdered Op.isIdentityOrConfigCreate Op.isDrift
       (traceOf (CreateOrUpdateCuration envHappy clHappy)) = true ∧
     opsOrdered Op.isDrift Op.isSecretCreate
       (traceOf (CreateOrUpdateCuration envHappy clHappy)) = true ∧
     opsOrdered Op.isSecretCreate Op.isStatusOp
       (traceOf (CreateOrUpdateCuration envHappy clHappy)) = true) := by
  refine ⟨rfl, by decide, ?_⟩
  exact createOrUpdateCuration_order envHappy clHappy rfl none _ (by decide)

/-- C1 counterexample: with the feature disabled and a fatal (non-not-found)
service-account deletion error, removeCurator reports the error but
CreateOrUpdateCuration returns success. -/
theorem createOrUpdateCuration_c1_counterexample :
    (removeCurator envDeleteFail clDisabled).1 =
      some (ReconcileError.removeFailed "serviceaccount" (K8sError.other "boom")) ∧
    CreateOrUpdateCuration envDeleteFail clDisabled =
      some (none, [Op.deleteServiceAccount "curator" "openshift-logging"]) := by
  constructor <;> decide

/-- C1 amended: when the curation type is not the curator variant,
CreateOrUpdateCuration performs removeCurator's deletions but discards its
result and returns success, whatever error the teardown reported. -/
theorem createOrUpdateCuration_discards_teardown_error (env : Env)
    (cluster : ClusterLogging)
    (hC : cluster.spec.curation.type ≠ CurationType.curator) :
    CreateOrUpdateCuration env cluster =
      some (none, (removeCurator env cluster).2) := by
  unfold CreateOrUpdateCuration
  rw [if_neg hC]

/-- Witness for the amended C1. -/
theorem createOrUpdateCuration_discards_teardown_error_witness :
    clDisabled.spec.curation.type ≠ CurationType.curator ∧
    CreateOrUpdateCuration envDeleteFail clDisabled =
      some (none, (removeCurator envDeleteFail clDisabled).2) :=
  ⟨by decide,
   createOrUpdateCuration_discards_teardown_error envDeleteFail clDisabled (by decide)⟩

/-- C3 counterexample: with the split topology selected (scheduled jobs
"curator-app" and "curator-infra"), a fully-managed teardown still deletes
only the job named "curator"; neither split job is ever deleted. -/
theorem removeCurator_c3_counterexample :
    clSplit.spec.topology = Topology.split ∧
    clSplit.spec.managementState = ManagementState.managed ∧
    (removeCurator envHappy clSplit).2 =
      [Op.deleteServiceAccount "curator" "openshift-logging",
       Op.deleteConfigMap "curator" "openshift-logging",
       Op.deleteSecret "curator" "openshift-logging",
       Op.deleteCronJob "curator" "openshift-logging"] ∧
    Op.deleteCronJob "curator-app" "openshift-logging" ∉
      (removeCurator envHappy clSplit).2 ∧
    Op.deleteCronJob "curator-infra" "openshift-logging" ∉
      (removeCurator envHappy clSplit).2 := by
  refine ⟨by decide, by decide, by decide, by decide, by decide⟩

/-- C3 amended: in fully-managed mode removeCurator attempts deletion of the
identity, the configuration bundle, the credential bundle and the single
scheduled job named "curator" (regardless of topology), in that fixed order;
a fatal deletion error stops the remaining deletions (the trace is an initial
segment of the list), and when no fatal error occurs all four deletions are
attempted. -/
theorem removeCurator_order (env : Env) (cluster : ClusterLogging)
    (hM : cluster.spec.managementState = ManagementState.managed) :
    (removeCurator env cluster).2 =
      ([Op.deleteServiceAccount "curator" cluster.ns,
        Op.deleteConfigMap "curator" cluster.ns,
        Op.deleteSecret "curator" cluster.ns,
        Op.deleteCronJob "curator" cluster.ns]).take
        (removeCurator env cluster).2.length ∧
    ((removeCurator env cluster).1 = none →
      (removeCurator env cluster).2 =
        [Op.deleteServiceAccount "curator" cluster.ns,
         Op.deleteConfigMap "curator" cluster.ns,
         Op.deleteSecret "curator" cluster.ns,
         Op.deleteCronJob "curator" cluster.ns]) := by
  unfold removeCurator
  rw [if_pos hM]
  cases h1 : removeResult env.deleteServiceAccountRes with
  | some e1 =>
      simp only [h1]
      exact ⟨rfl, fun hcon => Option.noConfusion hcon⟩
  | none =>
      cases h2 : removeResult env.deleteConfigMapRes with
      | some e2 =>
          simp only [h1, h2]
          exact ⟨rfl, fun hcon => Option.noConfusion hcon⟩
      | none =>
          cases h3 : removeResult env.deleteSecretRes with
          | some e3 =>
              simp only [h1, h2, h3]
              exact ⟨rfl, fun hcon => Option.noConfusion hcon⟩
          | none =>
              cases h4 : removeResult env.deleteCronJobRes with
              | some e4 =>
                  simp only [h1, h2, h3, h4]
                  exact ⟨rfl, fun hcon => Option.noConfusion hcon⟩
              | none =>
                  simp only [h1, h2, h3, h4]
                  exact ⟨rfl, fun _ => trivial⟩

/-- Witness for the amended C3 at the split-topology managed cluster. -/
theorem removeCurator_order_witness :
    clSplit.spec.managementState = ManagementState.managed ∧
    ((removeCurator envHappy clSplit).1 = none →
      (removeCurator envHappy clSplit).2 =
        [Op.deleteServiceAccount "curator" clSplit.ns,
         Op.deleteConfigMap "curator" clSplit.ns,
         Op.deleteSecret "curator" clSplit.ns,
         Op.deleteCronJob "curator" clSplit.ns]) :=
  ⟨rfl, (removeCurator_order envHappy clSplit rfl).2⟩

/-- C2: each of the three static-resource creators issues exactly one Create
operation per reconciliation — never a get, diff or update — and an
already-existing resource is treated as success, so drifted stored content is
never corrected for these resources. -/
theorem staticCreators_create_only (env : Env) (cluster : ClusterLogging) :
    (createOrUpdateCuratorServiceAccount env cluster).2 =
      [Op.createServiceAccount (curatorServiceAccount cluster)] ∧
    (createOrUpdateCuratorConfigMap env cluster).2 =
      [Op.createConfigMap (curatorConfigMap cluster)] ∧
    (createOrUpdateCuratorSecret env cluster).2 =
      [Op.createSecret (curatorSecret cluster)] ∧
    (createOrUpdateCuratorServiceAccount
        { env with createServiceAccountRes := some K8sError.alreadyExists } cluster).1 =
      none ∧
    (createOrUpdateCuratorConfigMap
        { env with createConfigMapRes := some K8sError.alreadyExists } cluster).1 =
      none ∧
    (createOrUpdateCuratorSecret
        { env with secretStoreRes := some K8sError.alreadyExists } cluster).1 = none := by
  refine ⟨?_, ?_, ?_, rfl, rfl, rfl⟩
  · unfold createOrUpdateCuratorServiceAccount; split <;> rfl
  · unfold createOrUpdateCuratorConfigMap; split <;> rfl
  · unfold createOrUpdateCuratorSecret; split <;> rfl

/-- C8: one attempt of the Status Synchronizer's retry loop issues an Update
of the owning ClusterLogging if and only if the re-fetched object exists and
its stored curator status differs from the freshly computed one. -/
theorem statusSyncBody_update_iff (env : Env) (cluster : ClusterLogging)
    (st : CuratorStatus) :
    (∃ cl2, Op.updateClusterLogging cl2 ∈ (statusSyncBody env cluster st).2) ↔
    (∃ cl2, env.refetchClusterLogging = some cl2 ∧
      cl2.status.curation.curatorStatus ≠ st) := by
  unfold statusSyncBody
  cases href : env.refetchClusterLogging with
  | none => simp
  | some cl2 =>
      by_cases heq : st = cl2.status.curation.curatorStatus
      · simp [heq]
      · simp only [Option.some.injEq]
        constructor
        · intro _
          exact ⟨cl2, rfl, fun hcon => heq hcon.symm⟩
        · intro _
          refine ⟨{ cl2 with status :=
            { cl2.status with curation :=
               { cl2.status.curation with curatorStatus := st } } }, ?_⟩
          simp [heq]

/-- C9: for a cluster that is not fully managed, the enabled branch issues no
drift operation at all (neither the fetch nor the patch of a scheduled job
appears in the trace) and the teardown performs no deletion and returns
success. -/
theorem unmanaged_skips_drift_and_teardown (env : Env) (cluster : ClusterLogging)
    (hM : cluster.spec.managementState ≠ ManagementState.managed) :
    (∀ r tr, CreateOrUpdateCuration env cluster = some (r, tr) →
      ∀ o ∈ tr, o.isDrift = false) ∧
    removeCurator env cluster = (none, []) := by
  have hrem : removeCurator env cluster = (none, []) := by
    unfold removeCurator
    rw [if_neg hM]
  refine ⟨?_, hrem⟩
  intro r tr h o ho
  by_cases hC : cluster.spec.curation.type = CurationType.curator
  · by_cases hd : o.isDrift = true
    · exact absurd (createOrUpdateCuration_drift_managed env cluster hC r tr h o ho hd) hM
    · simpa using hd
  · unfold CreateOrUpdateCuration at h
    rw [if_neg hC, hrem] at h
    cases h
    simp at ho

/-- Witness for C9 at the unmanaged cluster. -/
theorem unmanaged_skips_drift_and_teardown_witness :
    clUnmanaged.spec.managementState ≠ ManagementState.managed ∧
    removeCurator envHappy clUnmanaged = (none, []) :=
  ⟨by decide,
   (unmanaged_skips_drift_and_teardown envHappy clUnmanaged (by decide)).2⟩

end CLO
